import Mathlib

/-!
Verification of the invoice resource module of a Stripe API client
(`src/resources/invoices.rs`).  The module defines request-parameter
structures serialized with serde (`skip_serializing_if = "Option::is_none"`
on every optional field), response entities deserialized with serde, and
thin operations that delegate HTTP calls to an injected client collaborator.

JSON values are modelled with exact rational numbers standing in for the
wire's decimal literals; `f64` fields carry the decoded numeric value as a
rational.  Machine-integer fields (`u64`, `i64`) are modelled as `Nat` and
`Int`; no arithmetic is performed on them so overflow never arises.
-/

/-- A JSON value as decoded from a response body or emitted in a request
body.  Objects keep their key-value pairs in order. -/
inductive Json where
  | null : Json
  | bool (b : Bool) : Json
  | num (q : Rat) : Json
  | str (s : String) : Json
  | arr (xs : List Json) : Json
  | obj (kvs : List (String × Json)) : Json
deriving Repr

namespace Json

/-- True exactly on the JSON `null` value. -/
def isNull : Json → Bool
  | .null => true
  | _ => false

/-- Decode a JSON value as a string (serde `String` / `&str` field). -/
def asStr : Json → Option String
  | .str s => some s
  | _ => none

/-- Decode a JSON value as a boolean (serde `bool` field). -/
def asBool : Json → Option Bool
  | .bool b => some b
  | _ => none

/-- Decode a JSON value as an unsigned integer (serde `u64` field): the
number must be a non-negative integer. -/
def asNat : Json → Option Nat
  | .num q => if q.den = 1 ∧ 0 ≤ q.num then some q.num.toNat else none
  | _ => none

/-- Decode a JSON value as a signed integer (serde `i64` field): the number
must be an integer. -/
def asInt : Json → Option Int
  | .num q => if q.den = 1 then some q.num else none
  | _ => none

/-- Decode a JSON value as a floating-point number (serde `f64` field),
modelled as the exact rational value of the literal. -/
def asNum : Json → Option Rat
  | .num q => some q
  | _ => none

end Json

/-- `params::Timestamp`: integer epoch seconds (external collaborator type,
an `i64` alias in the client crate). -/
abbrev Timestamp := Int

/-- Modelled from the spec: `resources::Currency` is a currency code; it
serializes to and deserializes from a plain JSON string. -/
abbrev Currency := String

/-- Modelled from the spec: `params::Metadata` is a string-keyed,
string-valued mapping; modelled as an ordered association list. -/
abbrev Metadata := List (String × String)

/-- Modelled from the spec: `resources::Discount` is an external entity not
specified in this fragment; modelled as the field list of its raw JSON
object. -/
structure Discount where
  raw : List (String × Json)
deriving Repr

/-- Modelled from the spec: `resources::Plan` is an external entity not
specified in this fragment; modelled as the field list of its raw JSON
object. -/
structure Plan where
  raw : List (String × Json)
deriving Repr

/-- Modelled from the spec: `params::List<T>` is a paginated collection
wrapper holding the items plus a has-more flag. -/
structure StripeList (α : Type) where
  data : List α
  has_more : Bool
deriving Repr

/-- Modelled from the spec: the uniform error type of the external client
collaborator.  Transport, API and decode failures originate in the
collaborator; encode failures arise from local query-string encoding.  Each
constructor carries its message. -/
inductive Error where
  | TransportError (msg : String) : Error
  | ApiError (msg : String) : Error
  | EncodeError (msg : String) : Error
  | DecodeError (msg : String) : Error
deriving Repr, DecidableEq

/-- `InvoiceParams` (used by both create and update): every field is
optional and carries `skip_serializing_if = "Option::is_none"`. -/
structure InvoiceParams where
  application_fee : Option Nat := none
  customer : Option String := none
  description : Option String := none
  statement_descriptor : Option String := none
  subscription : Option String := none
  tax_percent : Option Rat := none
  closed : Option Bool := none
  forgiven : Option Bool := none
deriving Repr

/-- `InvoiceItemParams`: every field is optional and carries
`skip_serializing_if = "Option::is_none"`.  `metadata` and `subscription`
are booleans in the source (a modelling defect inherited verbatim). -/
structure InvoiceItemParams where
  amount : Option Int := none
  currency : Option Currency := none
  customer : Option String := none
  description : Option String := none
  discountable : Option Bool := none
  invoice : Option String := none
  metadata : Option Bool := none
  subscription : Option Bool := none
deriving Repr

/-- `InvoiceListParams`: optional `limit` and `customer`, both with
`skip_serializing_if = "Option::is_none"`. -/
structure InvoiceListParams where
  limit : Option Nat := none
  customer : Option String := none
deriving Repr

/-- serde serialization of one optional struct field with
`skip_serializing_if = "Option::is_none"`: an unset field contributes
nothing; a set field contributes one key-value pair. -/
def optField (k : String) (f : α → Json) : Option α → List (String × Json)
  | none => []
  | some v => [(k, f v)]

/-- serde serialization of `InvoiceParams`: fields in declaration order,
unset fields skipped. -/
def serializeInvoiceParams (p : InvoiceParams) : List (String × Json) :=
  optField "application_fee" (fun n => Json.num n) p.application_fee ++
  optField "customer" Json.str p.customer ++
  optField "description" Json.str p.description ++
  optField "statement_descriptor" Json.str p.statement_descriptor ++
  optField "subscription" Json.str p.subscription ++
  optField "tax_percent" Json.num p.tax_percent ++
  optField "closed" Json.bool p.closed ++
  optField "forgiven" Json.bool p.forgiven

/-- serde serialization of `InvoiceItemParams`: fields in declaration
order, unset fields skipped. -/
def serializeInvoiceItemParams (p : InvoiceItemParams) : List (String × Json) :=
  optField "amount" (fun i => Json.num i) p.amount ++
  optField "currency" Json.str p.currency ++
  optField "customer" Json.str p.customer ++
  optField "description" Json.str p.description ++
  optField "discountable" Json.bool p.discountable ++
  optField "invoice" Json.str p.invoice ++
  optField "metadata" Json.bool p.metadata ++
  optField "subscription" Json.bool p.subscription

/-- serde serialization of `InvoiceListParams`: fields in declaration
order, unset fields skipped. -/
def serializeInvoiceListParams (p : InvoiceListParams) : List (String × Json) :=
  optField "limit" (fun n => Json.num n) p.limit ++
  optField "customer" Json.str p.customer

/-- `Period`: start and end timestamps (response entity). -/
structure Period where
  start : Timestamp
  toEnd : Timestamp
deriving Repr

/-- `InvoiceItem` (response entity).  `item_type` is deserialized from the
JSON key `type` and carries `serde(default)`, so a missing key yields the
empty string (`String::default`). -/
structure InvoiceItem where
  id : String
  amount : Int
  currency : Currency
  description : Option String
  discountable : Bool
  livemode : Bool
  metadata : Metadata
  period : Period
  plan : Option Plan
  proration : Bool
  quantity : Option Nat
  subscription : Option String
  subscription_item : Option String
  item_type : String
deriving Repr

/-- `Invoice` (response entity).  Note the misspelled field
`statment_descriptor`, which serde therefore deserializes from the JSON
key of the same misspelled name. -/
structure Invoice where
  id : String
  amount_due : Nat
  application_fee : Option Nat
  attempt_count : Nat
  attempted : Bool
  charge : Option String
  closed : Bool
  currency : Currency
  customer : String
  date : Timestamp
  description : Option String
  discount : Option Discount
  ending_balance : Option Int
  forgiven : Bool
  lines : StripeList InvoiceItem
  livemode : Bool
  metadata : Metadata
  next_payment_attempt : Option Timestamp
  paid : Bool
  period_end : Timestamp
  period_start : Timestamp
  receipt_number : Option String
  starting_balance : Int
  statment_descriptor : Option String
  subscription : Option String
  subscription_proration_date : Option Timestamp
  subtotal : Int
  tax : Option Int
  tax_percent : Option Rat
  total : Int
  webhooks_delivered_at : Option Timestamp
deriving Repr

/-- Look up a key in a JSON object's field list (first occurrence). -/
def jlookup (k : String) : List (String × Json) → Option Json
  | [] => none
  | (k', v) :: t => if k = k' then some v else jlookup k t

/-- serde decoding of a required struct field: the key must be present and
its value must decode. -/
def getReq (kvs : List (String × Json)) (k : String) (f : Json → Option α) : Option α :=
  (jlookup k kvs).bind f

/-- serde decoding of an `Option` struct field: a missing key or a `null`
value decodes to `none`; any other value must decode. -/
def parseOpt (f : Json → Option α) : Option Json → Option (Option α)
  | none => some none
  | some Json.null => some none
  | some v => (f v).map some

/-- serde decoding of an optional struct field from an object. -/
def getOpt (kvs : List (String × Json)) (k : String) (f : Json → Option α) : Option (Option α) :=
  parseOpt f (jlookup k kvs)

/-- serde decoding of a field carrying `serde(default)`: a missing key
yields the default value instead of failing. -/
def getDefault (kvs : List (String × Json)) (k : String) (f : Json → Option α) (d : α) : Option α :=
  match jlookup k kvs with
  | none => some d
  | some v => f v

/-- Modelled from the spec: the field-by-field decoding of the external
`Metadata` mapping — every value must be a string. -/
def decodeMetadataPairs : List (String × Json) → Option Metadata
  | [] => some []
  | (k, v) :: t =>
    match v.asStr with
    | none => none
    | some s => (decodeMetadataPairs t).map fun r => (k, s) :: r

/-- Modelled from the spec: deserialization of the external `Metadata`
mapping — a JSON object whose values are all strings. -/
def decodeMetadata : Json → Option Metadata
  | .obj kvs => decodeMetadataPairs kvs
  | _ => none

/-- Modelled from the spec: deserialization of the external `Discount`
entity — any JSON object, kept raw. -/
def decodeDiscount : Json → Option Discount
  | .obj kvs => some ⟨kvs⟩
  | _ => none

/-- Modelled from the spec: deserialization of the external `Plan` entity —
any JSON object, kept raw. -/
def decodePlan : Json → Option Plan
  | .obj kvs => some ⟨kvs⟩
  | _ => none

/-- serde deserialization of `Period`: both timestamps required. -/
def decodePeriod : Json → Option Period
  | .obj kvs => do
    let s ← getReq kvs "start" Json.asInt
    let e ← getReq kvs "end" Json.asInt
    pure ⟨s, e⟩
  | _ => none

/-- serde deserialization of `InvoiceItem`: required fields must be
present, `Option` fields default to `none` when absent, and `item_type`
reads the key `type` with `serde(default)`.  Unknown keys are ignored. -/
def decodeInvoiceItem : Json → Option InvoiceItem
  | .obj kvs => do
    let id ← getReq kvs "id" Json.asStr
    let amount ← getReq kvs "amount" Json.asInt
    let currency ← getReq kvs "currency" Json.asStr
    let description ← getOpt kvs "description" Json.asStr
    let discountable ← getReq kvs "discountable" Json.asBool
    let livemode ← getReq kvs "livemode" Json.asBool
    let metadata ← getReq kvs "metadata" decodeMetadata
    let period ← getReq kvs "period" decodePeriod
    let plan ← getOpt kvs "plan" decodePlan
    let proration ← getReq kvs "proration" Json.asBool
    let quantity ← getOpt kvs "quantity" Json.asNat
    let subscription ← getOpt kvs "subscription" Json.asStr
    let subscription_item ← getOpt kvs "subscription_item" Json.asStr
    let item_type ← getDefault kvs "type" Json.asStr ""
    pure ⟨id, amount, currency, description, discountable, livemode, metadata,
          period, plan, proration, quantity, subscription, subscription_item, item_type⟩
  | _ => none

/-- Element-wise deserialization of the items of a `List<InvoiceItem>`:
every element must decode. -/
def decodeItems : List Json → Option (List InvoiceItem)
  | [] => some []
  | x :: t =>
    match decodeInvoiceItem x with
    | none => none
    | some it => (decodeItems t).map fun r => it :: r

/-- Modelled from the spec: deserialization of the external
`List<InvoiceItem>` wrapper — a JSON object with the items under `data`
and a boolean `has_more` flag. -/
def decodeItemList : Json → Option (StripeList InvoiceItem)
  | .obj kvs => do
    let dataJson ← jlookup "data" kvs
    let items ← match dataJson with
      | .arr xs => decodeItems xs
      | _ => none
    let hasMore ← getReq kvs "has_more" Json.asBool
    pure ⟨items, hasMore⟩
  | _ => none

/-- serde deserialization of the `Invoice` fields `id` through `currency`
(split out of `decodeInvoice` to keep elaboration tractable). -/
def decodeInvoiceFieldsA (kvs : List (String × Json)) :
    Option (String × Nat × Option Nat × Nat × Bool × Option String × Bool × Currency) := do
  let id ← getReq kvs "id" Json.asStr
  let amount_due ← getReq kvs "amount_due" Json.asNat
  let application_fee ← getOpt kvs "application_fee" Json.asNat
  let attempt_count ← getReq kvs "attempt_count" Json.asNat
  let attempted ← getReq kvs "attempted" Json.asBool
  let charge ← getOpt kvs "charge" Json.asStr
  let closed ← getReq kvs "closed" Json.asBool
  let currency ← getReq kvs "currency" Json.asStr
  pure (id, amount_due, application_fee, attempt_count, attempted, charge, closed, currency)

/-- serde deserialization of the `Invoice` fields `customer` through
`livemode`. -/
def decodeInvoiceFieldsB (kvs : List (String × Json)) :
    Option (String × Timestamp × Option String × Option Discount × Option Int × Bool ×
      StripeList InvoiceItem × Bool) := do
  let customer ← getReq kvs "customer" Json.asStr
  let date ← getReq kvs "date" Json.asInt
  let description ← getOpt kvs "description" Json.asStr
  let discount ← getOpt kvs "discount" decodeDiscount
  let ending_balance ← getOpt kvs "ending_balance" Json.asInt
  let forgiven ← getReq kvs "forgiven" Json.asBool
  let lines ← getReq kvs "lines" decodeItemList
  let livemode ← getReq kvs "livemode" Json.asBool
  pure (customer, date, description, discount, ending_balance, forgiven, lines, livemode)

/-- serde deserialization of the `Invoice` fields `metadata` through
`statment_descriptor`.  The statement-descriptor value is read from the
misspelled key `statment_descriptor` exactly as the source declares it. -/
def decodeInvoiceFieldsC (kvs : List (String × Json)) :
    Option (Metadata × Option Timestamp × Bool × Timestamp × Timestamp ×
      Option String × Int × Option String) := do
  let metadata ← getReq kvs "metadata" decodeMetadata
  let next_payment_attempt ← getOpt kvs "next_payment_attempt" Json.asInt
  let paid ← getReq kvs "paid" Json.asBool
  let period_end ← getReq kvs "period_end" Json.asInt
  let period_start ← getReq kvs "period_start" Json.asInt
  let receipt_number ← getOpt kvs "receipt_number" Json.asStr
  let starting_balance ← getReq kvs "starting_balance" Json.asInt
  let statment_descriptor ← getOpt kvs "statment_descriptor" Json.asStr
  pure (metadata, next_payment_attempt, paid, period_end, period_start,
    receipt_number, starting_balance, statment_descriptor)

/-- serde deserialization of the `Invoice` fields `subscription` through
`webhooks_delivered_at`. -/
def decodeInvoiceFieldsD (kvs : List (String × Json)) :
    Option (Option String × Option Timestamp × Int × Option Int × Option Rat ×
      Int × Option Timestamp) := do
  let subscription ← getOpt kvs "subscription" Json.asStr
  let subscription_proration_date ← getOpt kvs "subscription_proration_date" Json.asInt
  let subtotal ← getReq kvs "subtotal" Json.asInt
  let tax ← getOpt kvs "tax" Json.asInt
  let tax_percent ← getOpt kvs "tax_percent" Json.asNum
  let total ← getReq kvs "total" Json.asInt
  let webhooks_delivered_at ← getOpt kvs "webhooks_delivered_at" Json.asInt
  pure (subscription, subscription_proration_date, subtotal, tax, tax_percent,
    total, webhooks_delivered_at)

/-- serde deserialization of `Invoice`: required fields must be present,
`Option` fields default to `none` when absent.  Unknown keys are ignored.
The field order and keys follow the source declaration; the work is split
across the four field-group helpers above. -/
def decodeInvoice : Json → Option Invoice
  | .obj kvs => do
    let (id, amount_due, application_fee, attempt_count, attempted, charge,
      closed, currency) ← decodeInvoiceFieldsA kvs
    let (customer, date, description, discount, ending_balance, forgiven,
      lines, livemode) ← decodeInvoiceFieldsB kvs
    let (metadata, next_payment_attempt, paid, period_end, period_start,
      receipt_number, starting_balance, statment_descriptor) ← decodeInvoiceFieldsC kvs
    let (subscription, subscription_proration_date, subtotal, tax, tax_percent,
      total, webhooks_delivered_at) ← decodeInvoiceFieldsD kvs
    pure ⟨id, amount_due, application_fee, attempt_count, attempted, charge, closed,
          currency, customer, date, description, discount, ending_balance, forgiven,
          lines, livemode, metadata, next_payment_attempt, paid, period_end,
          period_start, receipt_number, starting_balance, statment_descriptor,
          subscription, subscription_proration_date, subtotal, tax, tax_percent,
          total, webhooks_delivered_at⟩
  | _ => none

/-- Upper-case hexadecimal digit for percent-encoding. -/
def hexDigit (n : Nat) : Char :=
  if n < 10 then Char.ofNat (48 + n) else Char.ofNat (55 + n)

/-- UTF-8 bytes of a Unicode code point. -/
def utf8Bytes (n : Nat) : List Nat :=
  if n < 128 then [n]
  else if n < 2048 then [192 + n / 64, 128 + n % 64]
  else if n < 65536 then [224 + n / 4096, 128 + (n / 64) % 64, 128 + n % 64]
  else [240 + n / 262144, 128 + (n / 4096) % 64, 128 + (n / 64) % 64, 128 + n % 64]

/-- Percent-encode one byte as `%XX`. -/
def byteHex (b : Nat) : String :=
  String.mk ['%', hexDigit (b / 16), hexDigit (b % 16)]

/-- Percent-encode one character for a query string: unreserved characters
pass through, everything else is percent-encoded byte by byte. -/
def qsEncodeChar (c : Char) : String :=
  if c.isAlphanum || c = '-' || c = '_' || c = '.' || c = '~' then String.singleton c
  else String.join ((utf8Bytes c.toNat).map byteHex)

/-- Percent-encode a string for a query string. -/
def qsEncodeStr (s : String) : String :=
  String.join (s.data.map qsEncodeChar)

/-- Modelled from the spec: `serde_qs::to_string` renders one serialized
field value.  Strings are percent-encoded, integers and booleans use their
decimal and literal forms; value shapes this module never produces are the
unsupported shapes on which encoding fails with `EncodeError`. -/
def qsValString : Json → Except Error String
  | .str s => .ok (qsEncodeStr s)
  | .num q => .ok (if q.den = 1 then toString q.num else toString q)
  | .bool b => .ok (cond b "true" "false")
  | _ => .error (Error.EncodeError "unsupported value shape")

/-- The rendered `key=value` parts of a query string, failing on the first
unsupported value. -/
def qsParts : List (String × Json) → Except Error (List String)
  | [] => .ok []
  | kv :: t =>
    match qsValString kv.2 with
    | .error e => .error e
    | .ok s => (qsParts t).map fun r => (qsEncodeStr kv.1 ++ "=" ++ s) :: r

/-- Modelled from the spec: `serde_qs::to_string` over the serde field list
of a flat struct — `key=value` pairs joined with `&`, in field order. -/
def qsToString (l : List (String × Json)) : Except Error String :=
  (qsParts l).map (String.intercalate "&")

/-- Modelled from the spec: the external `Client` collaborator performs
authenticated HTTP, request-body serialization and JSON response decoding,
returning a uniform error on any stage failure.  Its generic
`get`/`post`/`post_empty` methods are modelled with one field per response
type this module instantiates them at; a request body is the serde field
list of the params, and `post_empty` carries no body. -/
structure Client where
  getInvoice : String → Except Error Invoice
  getInvoiceList : String → Except Error (StripeList Invoice)
  postInvoice : String → List (String × Json) → Except Error Invoice
  postEmptyInvoice : String → Except Error Invoice
  postInvoiceItem : String → List (String × Json) → Except Error InvoiceItem

namespace Invoice

/-- `Invoice::create`: `client.post("/invoices", params)`. -/
def create (client : Client) (params : InvoiceParams) : Except Error Invoice :=
  client.postInvoice "/invoices" (serializeInvoiceParams params)

/-- `Invoice::retrieve`: `client.get(&format!("/invoices/{}", invoice_id))`. -/
def retrieve (client : Client) (invoice_id : String) : Except Error Invoice :=
  client.getInvoice ("/invoices/" ++ invoice_id)

/-- `Invoice::pay`: `client.post_empty(&format!("/invoices/{}/pay", invoice_id))`. -/
def pay (client : Client) (invoice_id : String) : Except Error Invoice :=
  client.postEmptyInvoice ("/invoices/" ++ invoice_id ++ "/pay")

/-- `Invoice::update`: `client.post(&format!("/invoices/{}", invoice_id), &params)`. -/
def update (client : Client) (invoice_id : String) (params : InvoiceParams) :
    Except Error Invoice :=
  client.postInvoice ("/invoices/" ++ invoice_id) (serializeInvoiceParams params)

/-- `Invoice::list`: `client.get(&format!("/invoices?{}", qs::to_string(&params)?))`.
The `?` operator propagates a query-string encoding failure before any
client call is made. -/
def list (client : Client) (params : InvoiceListParams) :
    Except Error (StripeList Invoice) :=
  match qsToString (serializeInvoiceListParams params) with
  | .error e => .error e
  | .ok q => client.getInvoiceList ("/invoices?" ++ q)

end Invoice

namespace InvoiceItem

/-- `InvoiceItem::create`: `client.post(&format!("/invoiceitems"), &params)`. -/
def create (client : Client) (params : InvoiceItemParams) : Except Error InvoiceItem :=
  client.postInvoiceItem "/invoiceitems" (serializeInvoiceItemParams params)

end InvoiceItem

/-- A `u64` value on the wire. -/
def encNat (n : Nat) : Json := Json.num n

/-- An `i64` or `Timestamp` value on the wire. -/
def encInt (i : Int) : Json := Json.num i

/-- An `f64` value on the wire (exact rational model). -/
def encRat (q : Rat) : Json := Json.num q

/-- Wire form of an external `Metadata` mapping. -/
def encodeMetadata (m : Metadata) : Json :=
  Json.obj (m.map fun kv => (kv.1, Json.str kv.2))

/-- Wire form of a `Period`. -/
def encodePeriod (p : Period) : Json :=
  Json.obj [("start", encInt p.start), ("end", encInt p.toEnd)]

/-- Wire form of an external `Discount`. -/
def encodeDiscount (d : Discount) : Json := Json.obj d.raw

/-- Wire form of an external `Plan`. -/
def encodePlan (p : Plan) : Json := Json.obj p.raw

/-- The field list of a well-formed `InvoiceItem` response body:
every field of the entity under its JSON key, optional fields present only
when set, the item-type tag under its wire key `type`. -/
def encodeInvoiceItemFields (it : InvoiceItem) : List (String × Json) :=
  [("id", Json.str it.id), ("amount", encInt it.amount), ("currency", Json.str it.currency)] ++
  optField "description" Json.str it.description ++
  [("discountable", Json.bool it.discountable), ("livemode", Json.bool it.livemode),
   ("metadata", encodeMetadata it.metadata), ("period", encodePeriod it.period)] ++
  optField "plan" encodePlan it.plan ++
  [("proration", Json.bool it.proration)] ++
  optField "quantity" encNat it.quantity ++
  optField "subscription" Json.str it.subscription ++
  optField "subscription_item" Json.str it.subscription_item ++
  [("type", Json.str it.item_type)]

/-- A well-formed `InvoiceItem` response body. -/
def encodeInvoiceItem (it : InvoiceItem) : Json :=
  Json.obj (encodeInvoiceItemFields it)

/-- An `InvoiceItem` response body that omits the `type` key, as the
platform's create-item response does. -/
def encodeInvoiceItemNoType (it : InvoiceItem) : Json :=
  Json.obj
    ([("id", Json.str it.id), ("amount", encInt it.amount), ("currency", Json.str it.currency)] ++
    optField "description" Json.str it.description ++
    [("discountable", Json.bool it.discountable), ("livemode", Json.bool it.livemode),
     ("metadata", encodeMetadata it.metadata), ("period", encodePeriod it.period)] ++
    optField "plan" encodePlan it.plan ++
    [("proration", Json.bool it.proration)] ++
    optField "quantity" encNat it.quantity ++
    optField "subscription" Json.str it.subscription ++
    optField "subscription_item" Json.str it.subscription_item)

/-- Wire form of the external `List<InvoiceItem>` wrapper. -/
def encodeItemList (l : StripeList InvoiceItem) : Json :=
  Json.obj [("data", Json.arr (l.data.map encodeInvoiceItem)), ("has_more", Json.bool l.has_more)]

/-- The field list of an `Invoice` response body, with the statement
descriptor emitted under the key `sdKey`: under the source's misspelled
key `statment_descriptor` this is exactly a well-formed body for the
decoder, while under the platform's standard key `statement_descriptor`
it is a body as the remote API would actually serve it. -/
def encodeInvoiceFieldsWith (sdKey : String) (inv : Invoice) : List (String × Json) :=
  [("id", Json.str inv.id), ("amount_due", encNat inv.amount_due)] ++
  optField "application_fee" encNat inv.application_fee ++
  [("attempt_count", encNat inv.attempt_count), ("attempted", Json.bool inv.attempted)] ++
  optField "charge" Json.str inv.charge ++
  [("closed", Json.bool inv.closed), ("currency", Json.str inv.currency),
   ("customer", Json.str inv.customer), ("date", encInt inv.date)] ++
  optField "description" Json.str inv.description ++
  optField "discount" encodeDiscount inv.discount ++
  optField "ending_balance" encInt inv.ending_balance ++
  [("forgiven", Json.bool inv.forgiven), ("lines", encodeItemList inv.lines),
   ("livemode", Json.bool inv.livemode), ("metadata", encodeMetadata inv.metadata)] ++
  optField "next_payment_attempt" encInt inv.next_payment_attempt ++
  [("paid", Json.bool inv.paid), ("period_end", encInt inv.period_end),
   ("period_start", encInt inv.period_start)] ++
  optField "receipt_number" Json.str inv.receipt_number ++
  [("starting_balance", encInt inv.starting_balance)] ++
  optField sdKey Json.str inv.statment_descriptor ++
  optField "subscription" Json.str inv.subscription ++
  optField "subscription_proration_date" encInt inv.subscription_proration_date ++
  [("subtotal", encInt inv.subtotal)] ++
  optField "tax" encInt inv.tax ++
  optField "tax_percent" encRat inv.tax_percent ++
  [("total", encInt inv.total)] ++
  optField "webhooks_delivered_at" encInt inv.webhooks_delivered_at

/-- A well-formed `Invoice` response body for the decoder: optional fields
present exactly when set, statement descriptor under the source's
misspelled key. -/
def encodeInvoice (inv : Invoice) : Json :=
  Json.obj (encodeInvoiceFieldsWith "statment_descriptor" inv)

/-- An `Invoice` response body as the remote platform serves it: identical,
except the statement descriptor travels under the standard key
`statement_descriptor`. -/
def encodeInvoiceStd (inv : Invoice) : Json :=
  Json.obj (encodeInvoiceFieldsWith "statement_descriptor" inv)

@[simp]
lemma jlookup_nil (k : String) : jlookup k [] = none := rfl

@[simp]
lemma jlookup_cons (k k' : String) (v : Json) (t : List (String × Json)) :
    jlookup k ((k', v) :: t) = if k = k' then some v else jlookup k t := rfl

@[simp]
lemma jlookup_append (k : String) (l₁ l₂ : List (String × Json)) :
    jlookup k (l₁ ++ l₂) = (jlookup k l₁).or (jlookup k l₂) := by
  induction l₁ with
  | nil => simp
  | cons h t ih =>
    obtain ⟨k', v⟩ := h
    by_cases hk : k = k' <;> simp [hk, ih]

@[simp]
lemma jlookup_optField_self (k : String) (f : α → Json) (o : Option α) :
    jlookup k (optField k f o) = o.map f := by
  cases o <;> simp [optField]

@[simp]
lemma jlookup_optField_ne (k k' : String) (f : α → Json) (o : Option α) (h : k ≠ k') :
    jlookup k (optField k' f o) = none := by
  cases o <;> simp [optField, h]

@[simp]
lemma parseOpt_none (f : Json → Option α) : parseOpt f none = some none := rfl

@[simp]
lemma parseOpt_map_str (o : Option String) :
    parseOpt Json.asStr (o.map Json.str) = some o := by
  cases o <;> simp [parseOpt, Json.asStr]

@[simp]
lemma parseOpt_map_encNat (o : Option Nat) :
    parseOpt Json.asNat (o.map encNat) = some o := by
  cases o <;> simp [parseOpt, Json.asNat, encNat]

@[simp]
lemma parseOpt_map_encInt (o : Option Int) :
    parseOpt Json.asInt (o.map encInt) = some o := by
  cases o <;> simp [parseOpt, Json.asInt, encInt]

@[simp]
lemma parseOpt_map_encRat (o : Option Rat) :
    parseOpt Json.asNum (o.map encRat) = some o := by
  cases o <;> simp [parseOpt, Json.asNum, encRat]

@[simp]
lemma parseOpt_map_discount (o : Option Discount) :
    parseOpt decodeDiscount (o.map encodeDiscount) = some o := by
  cases o <;> simp [parseOpt, decodeDiscount, encodeDiscount]

@[simp]
lemma parseOpt_map_plan (o : Option Plan) :
    parseOpt decodePlan (o.map encodePlan) = some o := by
  cases o <;> simp [parseOpt, decodePlan, encodePlan]

@[simp]
lemma asStr_str (s : String) : Json.asStr (Json.str s) = some s := rfl

@[simp]
lemma asBool_bool (b : Bool) : Json.asBool (Json.bool b) = some b := rfl

@[simp]
lemma asNat_encNat (n : Nat) : Json.asNat (encNat n) = some n := by
  simp [Json.asNat, encNat]

@[simp]
lemma asInt_encInt (i : Int) : Json.asInt (encInt i) = some i := by
  simp [Json.asInt, encInt]

@[simp]
lemma asNum_encRat (q : Rat) : Json.asNum (encRat q) = some q := rfl

@[simp]
lemma decodeMetadata_encodeMetadata (m : Metadata) :
    decodeMetadata (encodeMetadata m) = some m := by
  induction m with
  | nil => rfl
  | cons h t ih =>
    simp only [encodeMetadata, decodeMetadata, List.map_cons, decodeMetadataPairs] at *
    simp [ih]

@[simp]
lemma decodePeriod_encodePeriod (p : Period) :
    decodePeriod (encodePeriod p) = some p := by
  simp [decodePeriod, encodePeriod, getReq]

lemma decodeInvoiceItem_encodeInvoiceItem (it : InvoiceItem) :
    decodeInvoiceItem (encodeInvoiceItem it) = some it := by
  simp [decodeInvoiceItem, encodeInvoiceItem, encodeInvoiceItemFields, getReq, getOpt, getDefault]

lemma decodeItems_encode (l : List InvoiceItem) :
    decodeItems (l.map encodeInvoiceItem) = some l := by
  induction l with
  | nil => rfl
  | cons h t ih => simp [decodeItems, decodeInvoiceItem_encodeInvoiceItem, ih]

lemma decodeItemList_encodeItemList (l : StripeList InvoiceItem) :
    decodeItemList (encodeItemList l) = some l := by
  simp [decodeItemList, encodeItemList, getReq, decodeItems_encode]

lemma decodeInvoiceFieldsA_enc (inv : Invoice) (sd : String)
    (hsd : sd = "statment_descriptor" ∨ sd = "statement_descriptor") :
    decodeInvoiceFieldsA (encodeInvoiceFieldsWith sd inv) =
      some (inv.id, inv.amount_due, inv.application_fee, inv.attempt_count,
        inv.attempted, inv.charge, inv.closed, inv.currency) := by
  rcases hsd with h | h <;> subst h <;>
    simp [decodeInvoiceFieldsA, encodeInvoiceFieldsWith, getReq, getOpt]

lemma decodeInvoiceFieldsB_enc (inv : Invoice) (sd : String)
    (hsd : sd = "statment_descriptor" ∨ sd = "statement_descriptor") :
    decodeInvoiceFieldsB (encodeInvoiceFieldsWith sd inv) =
      some (inv.customer, inv.date, inv.description, inv.discount,
        inv.ending_balance, inv.forgiven, inv.lines, inv.livemode) := by
  rcases hsd with h | h <;> subst h <;>
    simp [decodeInvoiceFieldsB, encodeInvoiceFieldsWith, getReq, getOpt,
      decodeItemList_encodeItemList]

lemma decodeInvoiceFieldsC_enc_mis (inv : Invoice) :
    decodeInvoiceFieldsC (encodeInvoiceFieldsWith "statment_descriptor" inv) =
      some (inv.metadata, inv.next_payment_attempt, inv.paid, inv.period_end,
        inv.period_start, inv.receipt_number, inv.starting_balance,
        inv.statment_descriptor) := by
  simp [decodeInvoiceFieldsC, encodeInvoiceFieldsWith, getReq, getOpt]

lemma decodeInvoiceFieldsC_enc_std (inv : Invoice) :
    decodeInvoiceFieldsC (encodeInvoiceFieldsWith "statement_descriptor" inv) =
      some (inv.metadata, inv.next_payment_attempt, inv.paid, inv.period_end,
        inv.period_start, inv.receipt_number, inv.starting_balance, none) := by
  simp [decodeInvoiceFieldsC, encodeInvoiceFieldsWith, getReq, getOpt]

lemma decodeInvoiceFieldsD_enc (inv : Invoice) (sd : String)
    (hsd : sd = "statment_descriptor" ∨ sd = "statement_descriptor") :
    decodeInvoiceFieldsD (encodeInvoiceFieldsWith sd inv) =
      some (inv.subscription, inv.subscription_proration_date, inv.subtotal,
        inv.tax, inv.tax_percent, inv.total, inv.webhooks_delivered_at) := by
  rcases hsd with h | h <;> subst h <;>
    simp [decodeInvoiceFieldsD, encodeInvoiceFieldsWith, getReq, getOpt]

lemma decodeInvoice_encodeInvoice (inv : Invoice) :
    decodeInvoice (encodeInvoice inv) = some inv := by
  simp [decodeInvoice, encodeInvoice,
    decodeInvoiceFieldsA_enc inv _ (Or.inl rfl),
    decodeInvoiceFieldsB_enc inv _ (Or.inl rfl),
    decodeInvoiceFieldsC_enc_mis inv,
    decodeInvoiceFieldsD_enc inv _ (Or.inl rfl)]

lemma decodeInvoice_encodeInvoiceStd (inv : Invoice) :
    decodeInvoice (encodeInvoiceStd inv) = some { inv with statment_descriptor := none } := by
  simp [decodeInvoice, encodeInvoiceStd,
    decodeInvoiceFieldsA_enc inv _ (Or.inr rfl),
    decodeInvoiceFieldsB_enc inv _ (Or.inr rfl),
    decodeInvoiceFieldsC_enc_std inv,
    decodeInvoiceFieldsD_enc inv _ (Or.inr rfl)]

/-- The query string `list` sends for given params (total, since both
fields of `InvoiceListParams` have encodable shapes). -/
def listQuery (p : InvoiceListParams) : String :=
  match qsToString (serializeInvoiceListParams p) with
  | .ok q => q
  | .error _ => ""

lemma qsToString_list (lp : InvoiceListParams) :
    qsToString (serializeInvoiceListParams lp) = .ok (listQuery lp) := by
  obtain ⟨l, c⟩ := lp
  cases l <;> cases c <;>
    simp [listQuery, qsToString, qsParts, serializeInvoiceListParams, optField, qsValString,
      Except.map]

lemma list_eq (c : Client) (lp : InvoiceListParams) :
    Invoice.list c lp = c.getInvoiceList ("/invoices?" ++ listQuery lp) := by
  simp [Invoice.list, qsToString_list]

lemma all_optField (P : String × Json → Bool) (k : String) (f : α → Json) (o : Option α)
    (h : ∀ v, P (k, f v) = true) : (optField k f o).all P = true := by
  cases o <;> simp [optField, h]

/-- Claim C1: serializing an `InvoiceParams`, `InvoiceItemParams` or
`InvoiceListParams` with only a subset of fields set emits exactly the set
fields — each field's key is present iff the field is set, carrying its
encoded value — emits no key outside the declared fields, and never emits
`null` for an unset field. -/
theorem claim_C1 (p : InvoiceParams) (q : InvoiceItemParams) (r : InvoiceListParams) :
    (jlookup "application_fee" (serializeInvoiceParams p) =
        p.application_fee.map (fun n => Json.num n) ∧
      jlookup "customer" (serializeInvoiceParams p) = p.customer.map Json.str ∧
      jlookup "description" (serializeInvoiceParams p) = p.description.map Json.str ∧
      jlookup "statement_descriptor" (serializeInvoiceParams p) =
        p.statement_descriptor.map Json.str ∧
      jlookup "subscription" (serializeInvoiceParams p) = p.subscription.map Json.str ∧
      jlookup "tax_percent" (serializeInvoiceParams p) = p.tax_percent.map Json.num ∧
      jlookup "closed" (serializeInvoiceParams p) = p.closed.map Json.bool ∧
      jlookup "forgiven" (serializeInvoiceParams p) = p.forgiven.map Json.bool) ∧
    ((serializeInvoiceParams p).all (fun kv =>
      ["application_fee", "customer", "description", "statement_descriptor",
        "subscription", "tax_percent", "closed", "forgiven"].contains kv.1 &&
      !kv.2.isNull) = true) ∧
    (jlookup "amount" (serializeInvoiceItemParams q) = q.amount.map (fun i => Json.num i) ∧
      jlookup "currency" (serializeInvoiceItemParams q) = q.currency.map Json.str ∧
      jlookup "customer" (serializeInvoiceItemParams q) = q.customer.map Json.str ∧
      jlookup "description" (serializeInvoiceItemParams q) = q.description.map Json.str ∧
      jlookup "discountable" (serializeInvoiceItemParams q) = q.discountable.map Json.bool ∧
      jlookup "invoice" (serializeInvoiceItemParams q) = q.invoice.map Json.str ∧
      jlookup "metadata" (serializeInvoiceItemParams q) = q.metadata.map Json.bool ∧
      jlookup "subscription" (serializeInvoiceItemParams q) = q.subscription.map Json.bool) ∧
    ((serializeInvoiceItemParams q).all (fun kv =>
      ["amount", "currency", "customer", "description", "discountable",
        "invoice", "metadata", "subscription"].contains kv.1 &&
      !kv.2.isNull) = true) ∧
    (jlookup "limit" (serializeInvoiceListParams r) = r.limit.map (fun n => Json.num n) ∧
      jlookup "customer" (serializeInvoiceListParams r) = r.customer.map Json.str) ∧
    ((serializeInvoiceListParams r).all (fun kv =>
      ["limit", "customer"].contains kv.1 && !kv.2.isNull) = true) := by
  refine ⟨⟨?_, ?_, ?_, ?_, ?_, ?_, ?_, ?_⟩, ?_, ⟨?_, ?_, ?_, ?_, ?_, ?_, ?_, ?_⟩, ?_,
      ⟨?_, ?_⟩, ?_⟩ <;>
    simp [serializeInvoiceParams, serializeInvoiceItemParams, serializeInvoiceListParams,
      all_optField, Json.isNull]

/-- Claim C2: decoding a well-formed `Invoice` response body reproduces
every present field exactly and decodes every absent optional field to the
explicit `none` state: decoding the body that carries exactly the set
fields of any `Invoice` value yields precisely that value. -/
theorem claim_C2 (inv : Invoice) : decodeInvoice (encodeInvoice inv) = some inv :=
  decodeInvoice_encodeInvoice inv

/-- A concrete invoice value for exercising the operations against a
concrete client. -/
def invoiceEx : Invoice :=
  { id := "in_1", amount_due := 0, application_fee := none, attempt_count := 0,
    attempted := false, charge := none, closed := false, currency := "usd",
    customer := "cus_1", date := 0, description := none, discount := none,
    ending_balance := none, forgiven := false, lines := ⟨[], false⟩,
    livemode := false, metadata := [], next_payment_attempt := none, paid := false,
    period_end := 0, period_start := 0, receipt_number := none,
    starting_balance := 0, statment_descriptor := none, subscription := none,
    subscription_proration_date := none, subtotal := 0, tax := none,
    tax_percent := none, total := 0, webhooks_delivered_at := none }

/-- A concrete invoice line item for exercising the operations against a
concrete client. -/
def invoiceItemEx : InvoiceItem :=
  { id := "ii_1", amount := 0, currency := "usd", description := none,
    discountable := false, livemode := false, metadata := [], period := ⟨0, 0⟩,
    plan := none, proration := false, quantity := none, subscription := none,
    subscription_item := none, item_type := "invoiceitem" }

/-- A client whose every call fails with the same transport error. -/
def clientErr : Client :=
  { getInvoice := fun _ => .error (.TransportError "connection reset"),
    getInvoiceList := fun _ => .error (.TransportError "connection reset"),
    postInvoice := fun _ _ => .error (.TransportError "connection reset"),
    postEmptyInvoice := fun _ => .error (.TransportError "connection reset"),
    postInvoiceItem := fun _ _ => .error (.TransportError "connection reset") }

/-- A client whose every call succeeds with a fixed decoded entity. -/
def clientOk : Client :=
  { getInvoice := fun _ => .ok invoiceEx,
    getInvoiceList := fun _ => .ok ⟨[invoiceEx], false⟩,
    postInvoice := fun _ _ => .ok invoiceEx,
    postEmptyInvoice := fun _ => .ok invoiceEx,
    postInvoiceItem := fun _ _ => .ok invoiceItemEx }

/-- Claim C3: every operation returns the client collaborator's result
verbatim — an injected error of any kind surfaces unchanged, same
constructor and same message, and a successful result is the collaborator's
fully decoded entity or list, never a partial value. -/
theorem claim_C3 (c : Client) (p : InvoiceParams) (q : InvoiceItemParams)
    (lp : InvoiceListParams) (id : String) (e : Error) :
    (c.postInvoice "/invoices" (serializeInvoiceParams p) = .error e →
      Invoice.create c p = .error e) ∧
    (∀ v, c.postInvoice "/invoices" (serializeInvoiceParams p) = .ok v →
      Invoice.create c p = .ok v) ∧
    (c.getInvoice ("/invoices/" ++ id) = .error e → Invoice.retrieve c id = .error e) ∧
    (∀ v, c.getInvoice ("/invoices/" ++ id) = .ok v → Invoice.retrieve c id = .ok v) ∧
    (c.postEmptyInvoice ("/invoices/" ++ id ++ "/pay") = .error e →
      Invoice.pay c id = .error e) ∧
    (∀ v, c.postEmptyInvoice ("/invoices/" ++ id ++ "/pay") = .ok v →
      Invoice.pay c id = .ok v) ∧
    (c.postInvoice ("/invoices/" ++ id) (serializeInvoiceParams p) = .error e →
      Invoice.update c id p = .error e) ∧
    (∀ v, c.postInvoice ("/invoices/" ++ id) (serializeInvoiceParams p) = .ok v →
      Invoice.update c id p = .ok v) ∧
    (c.getInvoiceList ("/invoices?" ++ listQuery lp) = .error e →
      Invoice.list c lp = .error e) ∧
    (∀ v, c.getInvoiceList ("/invoices?" ++ listQuery lp) = .ok v →
      Invoice.list c lp = .ok v) ∧
    (c.postInvoiceItem "/invoiceitems" (serializeInvoiceItemParams q) = .error e →
      InvoiceItem.create c q = .error e) ∧
    (∀ v, c.postInvoiceItem "/invoiceitems" (serializeInvoiceItemParams q) = .ok v →
      InvoiceItem.create c q = .ok v) := by
  refine ⟨fun h => h, fun v h => h, fun h => h, fun v h => h, fun h => h, fun v h => h,
    fun h => h, fun v h => h, ?_, ?_, fun h => h, fun v h => h⟩
  · intro h; rw [list_eq]; exact h
  · intro v h; rw [list_eq]; exact h

/-- Witness for claim C3 at two concrete clients: the failing client's
transport error surfaces unchanged from all six operations, and the
succeeding client's decoded entities are returned unchanged. -/
theorem claim_C3_witness :
    Invoice.create clientErr {} = .error (.TransportError "connection reset") ∧
    Invoice.retrieve clientErr "in_1" = .error (.TransportError "connection reset") ∧
    Invoice.pay clientErr "in_1" = .error (.TransportError "connection reset") ∧
    Invoice.update clientErr "in_1" {} = .error (.TransportError "connection reset") ∧
    Invoice.list clientErr {} = .error (.TransportError "connection reset") ∧
    InvoiceItem.create clientErr {} = .error (.TransportError "connection reset") ∧
    Invoice.create clientOk {} = .ok invoiceEx ∧
    Invoice.retrieve clientOk "in_1" = .ok invoiceEx ∧
    Invoice.pay clientOk "in_1" = .ok invoiceEx ∧
    Invoice.update clientOk "in_1" {} = .ok invoiceEx ∧
    Invoice.list clientOk {} = .ok ⟨[invoiceEx], false⟩ ∧
    InvoiceItem.create clientOk {} = .ok invoiceItemEx := by
  have hE := claim_C3 clientErr {} {} {} "in_1" (.TransportError "connection reset")
  have hO := claim_C3 clientOk {} {} {} "in_1" (.TransportError "connection reset")
  exact ⟨hE.1 rfl, hE.2.2.1 rfl, hE.2.2.2.2.1 rfl, hE.2.2.2.2.2.2.1 rfl,
    hE.2.2.2.2.2.2.2.2.1 rfl, hE.2.2.2.2.2.2.2.2.2.2.1 rfl,
    hO.2.1 _ rfl, hO.2.2.2.1 _ rfl, hO.2.2.2.2.2.1 _ rfl, hO.2.2.2.2.2.2.2.1 _ rfl,
    hO.2.2.2.2.2.2.2.2.2.1 _ rfl, hO.2.2.2.2.2.2.2.2.2.2.2 _ rfl⟩

/-- Claim C4: `list` with limit 10 and customer `cus_123` requests exactly
the query string carrying both keys with those values, in struct field
order; with no fields set the encoded query string is empty. -/
theorem claim_C4 (c : Client) :
    Invoice.list c { limit := some 10, customer := some "cus_123" } =
      c.getInvoiceList "/invoices?limit=10&customer=cus_123" ∧
    qsToString (serializeInvoiceListParams { limit := some 10, customer := some "cus_123" }) =
      .ok "limit=10&customer=cus_123" ∧
    qsToString (serializeInvoiceListParams {}) = .ok "" := by
  refine ⟨?_, rfl, rfl⟩
  rw [list_eq]
  rfl

/-- Claim C5: `retrieve` issues a GET to the path `/invoices/` followed by
the id exactly, for every id — including `in_123` and the unvalidated
empty id — with no query string and no body (the client's `get` carries
none). -/
theorem claim_C5 (c : Client) (id : String) :
    Invoice.retrieve c id = c.getInvoice ("/invoices/" ++ id) ∧
    Invoice.retrieve c "in_123" = c.getInvoice "/invoices/in_123" ∧
    Invoice.retrieve c "" = c.getInvoice "/invoices/" :=
  ⟨rfl, rfl, rfl⟩

/-- Claim C6: `pay` issues a POST with an empty body (the client's
`post_empty`) to `/invoices/` ++ id ++ `/pay` for every id — in particular
`/invoices/in_123/pay` — and returns the client's decoded result
unchanged. -/
theorem claim_C6 (c : Client) (id : String) :
    Invoice.pay c id = c.postEmptyInvoice ("/invoices/" ++ id ++ "/pay") ∧
    Invoice.pay c "in_123" = c.postEmptyInvoice "/invoices/in_123/pay" :=
  ⟨rfl, rfl⟩

/-- Claim C7: decoding an `InvoiceItem` response body that omits the
`type` key succeeds and yields the defined default (the empty string) for
`item_type`, for every value of the remaining fields. -/
theorem claim_C7 (it : InvoiceItem) :
    decodeInvoiceItem (encodeInvoiceItemNoType it) = some { it with item_type := "" } := by
  simp [decodeInvoiceItem, encodeInvoiceItemNoType, getReq, getOpt, getDefault]

/-- Claim C8: `list` is the only operation with a local failure branch
before the HTTP call, and that branch is never taken for
`InvoiceListParams`: query-string encoding always succeeds, after which
`list` delegates to the client exactly as every other operation does. -/
theorem claim_C8 (c : Client) (p : InvoiceParams) (q : InvoiceItemParams)
    (lp : InvoiceListParams) (id : String) :
    qsToString (serializeInvoiceListParams lp) = .ok (listQuery lp) ∧
    Invoice.list c lp = c.getInvoiceList ("/invoices?" ++ listQuery lp) ∧
    Invoice.create c p = c.postInvoice "/invoices" (serializeInvoiceParams p) ∧
    Invoice.retrieve c id = c.getInvoice ("/invoices/" ++ id) ∧
    Invoice.pay c id = c.postEmptyInvoice ("/invoices/" ++ id ++ "/pay") ∧
    Invoice.update c id p = c.postInvoice ("/invoices/" ++ id) (serializeInvoiceParams p) ∧
    InvoiceItem.create c q = c.postInvoiceItem "/invoiceitems" (serializeInvoiceItemParams q) :=
  ⟨qsToString_list lp, list_eq c lp, rfl, rfl, rfl, rfl, rfl⟩

/-- Claim C9: `list` always appends the `?` separator: with no fields set
the requested path is `/invoices?` — the path `/invoices` followed by an
empty query string — and not the bare `/invoices`. -/
theorem claim_C9 (c : Client) :
    Invoice.list c {} = c.getInvoiceList "/invoices?" ∧
    "/invoices?" ≠ "/invoices" := by
  refine ⟨?_, by decide⟩
  rw [list_eq]
  rfl

/-- Claim C10: the `Invoice` decoder reads the statement descriptor from
the misspelled key `statment_descriptor`: a response carrying the standard
key `statement_descriptor` has that value ignored and decodes with the
field absent (`none`), while the same body under the misspelled key
decodes the value faithfully. -/
theorem claim_C10 (inv : Invoice) (s : String) :
    decodeInvoice (encodeInvoiceStd inv) = some { inv with statment_descriptor := none } ∧
    decodeInvoice (encodeInvoice { inv with statment_descriptor := some s }) =
      some { inv with statment_descriptor := some s } :=
  ⟨decodeInvoice_encodeInvoiceStd inv,
    decodeInvoice_encodeInvoice { inv with statment_descriptor := some s }⟩
